import Mathlib

/-!
Verification of the AIChatApp backend (FastAPI + Gemini gateway).

Shallow embedding of the three routers (text chat, image chat, CSV chat),
the history reconciliation step, and the CSV histogram extractor.

Modelling conventions:
* Conversation timestamps are modelled as abstract second counts (Nat);
  `isoformat` renders them injectively (calendar formatting is abstracted,
  no claim inspects the rendered format).
* Python str.strip(), str.lower() and str.startswith() are embedded as the
  structural functions pyStrip, pyLower and pyStartsWith over the character
  list of the string (the Lean core counterparts are not kernel-reducible).
* The downstream Gemini calls are opaque collaborators; their outcomes are
  oracle parameters: an atomic call either raises (with a message), returns
  a falsy or empty text, or returns a text; a streaming call produces a list
  of raw chunk texts followed optionally by a raised error.
* The pandas CSV-parsing layer is abstracted: functions that in Python
  receive raw CSV text and call pd.read_csv receive here the parsed Table.
* The histogram-trigger regular expression of csv_router is hand-compiled
  into a backtracking matcher for that one fixed pattern
  (histogram_trigger_capture), with the alternation literals copied
  byte-for-byte from the source file; word characters are modelled as ASCII
  alphanumerics plus underscore and lowercasing as ASCII, faithful on the
  ASCII questions the claims exercise.
-/

namespace AIChat

/-- Python str.strip(): drop whitespace from both ends. -/
def pyStrip (s : String) : String :=
  ⟨(((s.data.dropWhile Char.isWhitespace).reverse).dropWhile Char.isWhitespace).reverse⟩

/-- Python str.lower(): lowercase every character. -/
def pyLower (s : String) : String := ⟨s.data.map Char.toLower⟩

/-- Character-list core of pyStartsWith. -/
def swChars : List Char → List Char → Bool
  | [], _ => true
  | _ :: _, [] => false
  | p :: ps, c :: cs => p == c && swChars ps cs

/-- Python s.startswith(pre). -/
def pyStartsWith (s pre : String) : Bool := swChars pre.data s.data

/-- A conversation turn, embedding the pydantic models ChatMessage,
ImageChatMessage and CSVChatMessage from models/schemas.py (they have the
same fields: role, content, optional timestamp, optional image and file
URLs; timestamp defaults to none). -/
structure ChatMessage where
  role : String
  content : String
  timestamp : Option Nat := none
  image_url : Option String := none
  file_url : Option String := none
deriving DecidableEq

/-- Outcome of one atomic model.generate_content call, as observed by the
service wrappers: `.error e` = the call raised an exception rendered as e;
`.ok none` = the call returned a falsy response or falsy response.text;
`.ok (some t)` = the call returned a response whose text is t (an empty t
is treated as falsy by the wrappers, matching Python truthiness). -/
abbrev AtomicOutcome := Except String (Option String)

/-- Embeds gemini_service.ask_gemini_text: returns response.text.strip()
when the response has text, the fixed placeholder when the response or its
text is falsy, and an error-marker string when the call raises. -/
def ask_gemini_text (outcome : AtomicOutcome) : String :=
  match outcome with
  | .error e => "❌ Error while generating text: " ++ e
  | .ok none => "(No response from Gemini)"
  | .ok (some t) => if t = "" then "(No response from Gemini)" else pyStrip t

/-- Embeds gemini_service.ask_gemini_text_streaming: each raw chunk with
nonempty text is yielded stripped; if the underlying iteration raises after
producing the chunks in `raw`, the exception is caught inside the generator
and one error-marker chunk is yielded instead of propagating. -/
def ask_gemini_text_streaming (raw : List String) (err : Option String) : List String :=
  (raw.filter (fun c => c ≠ "")).map pyStrip ++
    (match err with
     | some e => ["❌ Error while generating text: " ++ e]
     | none => [])

/-- Rendering of a timestamp for the serialized history (datetime.isoformat;
the calendar formatting is abstracted to an injective rendering of the
modelled second count). -/
def isoformat (t : Nat) : String := toString t

/-- A serialized history entry as built by chat_router stream_response
(dict with keys role, content, timestamp). -/
structure ChatSer where
  role : String
  content : String
  timestamp : String
deriving DecidableEq

/-- Embeds the history_dict list comprehension of chat_router (lines 79-86
and 123-130): msg.timestamp.isoformat() is called unconditionally, so the
first entry whose timestamp is none raises an AttributeError. -/
def serialize_history : List ChatMessage → Except String (List ChatSer)
  | [] => .ok []
  | m :: rest =>
    match m.timestamp with
    | none => .error "AttributeError: NoneType object has no attribute isoformat"
    | some t =>
      match serialize_history rest with
      | .ok tl => .ok ({ role := m.role, content := m.content, timestamp := isoformat t } :: tl)
      | .error e => .error e

/-- Embeds the history update of chat_router (lines 60-77 and 108-121):
append one user turn with the raw message and one assistant turn with the
finalized content, both stamped with the same second-precision instant. -/
def chat_updated_history (history : List ChatMessage) (message content : String)
    (now : Nat) : List ChatMessage :=
  history ++
    [{ role := "user", content := message, timestamp := some now },
     { role := "assistant", content := content, timestamp := some now }]

/-- A line-delimited wire event, parameterized by the serialized-history
payload type of the emitting router. -/
inductive Event (α : Type) where
  | chunk (s : String)
  | reply (s : String)
  | history (h : α)
  | error (s : String)
deriving DecidableEq

/-- Embeds chat_router.stream_response. `hist` is the json.loads outcome of
the history form field (none = JSONDecodeError, turned into an
HTTPException(422) whose rendering is yielded by the outer except). In
streaming mode the relayed chunks are accumulated as
full_response += chunk + " "; the assistant content committed to history is
response when it is truthy, otherwise full_response.strip(). Serialization
failure of the reconciled history is caught by the outer except and yielded
as one error event. -/
def chat_stream_response (hist : Option (List ChatMessage)) (message : String)
    (stream : Bool) (atomic : AtomicOutcome) (raw : List String)
    (rawErr : Option String) (now : Nat) : List (Event (List ChatSer)) :=
  match hist with
  | none => [.error "422: Invalid JSON in history"]
  | some history_messages =>
    let pieces : List String × Option String :=
      if stream then (ask_gemini_text_streaming raw rawErr, none)
      else ([], some (ask_gemini_text atomic))
    let full_response := String.join (pieces.1.map (fun c => c ++ " "))
    let contentEvents : List (Event (List ChatSer)) :=
      match pieces.2 with
      | some r => [Event.reply r]
      | none => pieces.1.map Event.chunk
    let content :=
      match pieces.2 with
      | some r => if r = "" then pyStrip full_response else r
      | none => pyStrip full_response
    let updated := chat_updated_history history_messages message content now
    match serialize_history updated with
    | .ok hd => contentEvents ++ [Event.history hd]
    | .error e => contentEvents ++ [Event.error e]

/-- HTTP-level failure of a non-streaming endpoint: an HTTPException with a
status code, or an unhandled exception (which FastAPI turns into a 500). -/
inductive HttpError where
  | http (code : Nat) (detail : String)
  | unhandled (msg : String)
deriving DecidableEq

/-- Response model ChatResponse of the non-streaming text-chat endpoint. -/
structure ChatResponse where
  reply : String
  history : List ChatMessage
deriving DecidableEq

/-- Embeds the non-streaming branch of chat_router.chat (lines 94-131):
malformed history JSON raises HTTPException(422); the history_dict
comprehension is computed (and discarded) before returning, so a none
timestamp in the reconciled history raises an unhandled AttributeError. -/
def chat_endpoint_nostream (hist : Option (List ChatMessage)) (message : String)
    (atomic : AtomicOutcome) (now : Nat) : Except HttpError ChatResponse :=
  match hist with
  | none => .error (.http 422 "Invalid JSON in history")
  | some history_messages =>
    let response := ask_gemini_text atomic
    let updated := chat_updated_history history_messages message response now
    match serialize_history updated with
    | .ok _ => .ok { reply := response, history := updated }
    | .error e => .error (.unhandled e)

/-! ### CSV service: table model and histogram extractor -/

/-- One column of a parsed DataFrame: a numeric dtype column with optional
(missing) rational entries, or a textual (object) dtype column. -/
inductive ColData where
  | numeric (vals : List (Option ℚ))
  | textual (vals : List (Option String))
deriving DecidableEq

/-- Number of rows stored in a column. -/
def ColData.size : ColData → Nat
  | .numeric vs => vs.length
  | .textual vs => vs.length

/-- A parsed DataFrame: ordered named columns. -/
structure Table where
  cols : List (String × ColData)
deriving DecidableEq

/-- pandas df.empty: no columns, or the (rectangular) columns have no rows. -/
def Table.isEmpty (df : Table) : Bool :=
  match df.cols with
  | [] => true
  | c :: _ => c.2.size == 0

/-- Bin boundary of the 10-bucket equal-width histogram:
edge lo hi i = lo + i * (hi - lo) / 10 (np.histogram bin edges, linspace). -/
def edge (lo hi : ℚ) (i : Nat) : ℚ := lo + i * (hi - lo) / 10

/-- Membership of a value in histogram bucket i per the documented
np.histogram semantics: every bucket is half-open except the last, which is
closed on both ends. -/
def inBin (lo hi : ℚ) (i : Nat) (v : ℚ) : Bool :=
  if i == 9 then decide (edge lo hi 9 ≤ v) && decide (v ≤ edge lo hi 10)
  else decide (edge lo hi i ≤ v) && decide (v < edge lo hi (i + 1))

/-- Minimum of a value list (0 for the empty list, which np.histogram never
consults on nonempty data). -/
def listMin : List ℚ → ℚ
  | [] => 0
  | x :: r => r.foldl min x

/-- Maximum of a value list (0 for the empty list). -/
def listMax : List ℚ → ℚ
  | [] => 0
  | x :: r => r.foldl max x

/-- Embeds np.histogram(xs, bins=10) over exact rationals: the range is
[min, max], widened to [min - 0.5, max + 0.5] when all values coincide and
to [0, 1] when there are no values (numpy defaults); 11 equally spaced
edges; 10 counts of the values in each bucket. -/
def npHistogram (xs : List ℚ) : List ℚ × List Nat :=
  if xs.isEmpty then
    ((List.range 11).map (fun i => edge 0 1 i), List.replicate 10 0)
  else
    let m := listMin xs
    let M := listMax xs
    let lo := if m = M then m - 1/2 else m
    let hi := if m = M then M + 1/2 else M
    ((List.range 11).map (edge lo hi),
     (List.range 10).map (fun i => xs.countP (fun v => inBin lo hi i v)))

/-- Result of the histogram extractor: histogram data, or an error message
returned as data (the Python function returns a dict either way and never
raises toward its caller). -/
inductive HistResult where
  | ok (column : String) (bins : List ℚ) (counts : List Nat)
  | error (msg : String)
deriving DecidableEq

/-- Embeds csv_service.generate_histogram_data from the parsed DataFrame on:
empty-data check, case-insensitive first-match column resolution (the
not-found message cites the requested name, the not-numeric message cites
the resolved name), dropna, then np.histogram with 10 buckets. -/
def generate_histogram_data (df : Table) (column : String) : HistResult :=
  if df.isEmpty then .error "CSV file is empty or contains no valid data."
  else
    match df.cols.find? (fun c => pyLower c.1 == pyLower column) with
    | none => .error ("Column \x27" ++ column ++ "\x27 not found in CSV.")
    | some (name, .textual _) => .error ("Column \x27" ++ name ++ "\x27 is not numeric.")
    | some (name, .numeric vals) =>
      let xs := vals.filterMap id
      let h := npHistogram xs
      .ok name h.1 h.2

/-- Rendering of a rational for the json.dumps output (float formatting is
abstracted to an exact rendering; no claim inspects the digits). -/
def renderQ (q : ℚ) : String := toString q.num ++ "/" ++ toString q.den

/-- Rendering of a numeric list for the json.dumps output. -/
def renderQList (l : List ℚ) : String :=
  "[" ++ String.intercalate ", " (l.map renderQ) ++ "]"

/-- Rendering of a count list for the json.dumps output. -/
def renderNatList (l : List Nat) : String :=
  "[" ++ String.intercalate ", " (l.map toString) ++ "]"

/-- The reply text built by the csv_router histogram branch: the error
message when the extractor failed, otherwise the 📊 banner followed by the
json.dumps rendering of the column name, bin edges and counts. -/
def histReply (column : String) (r : HistResult) : String :=
  match r with
  | .error e => e
  | .ok name bins counts =>
    "📊 Histogram data for \x27" ++ column ++ "\x27:\n\x7b\n  \"column\": \"" ++ name ++
      "\",\n  \"bins\": " ++ renderQList bins ++ ",\n  \"counts\": " ++
      renderNatList counts ++ "\n\x7d"

/-- Embeds csv_service.summarize_csv from the parsed DataFrame on: the
empty-data branches return ❌-prefixed error strings (parse failures are
represented by an empty Table); the success branch builds the textual
profile, whose statistics and top-value sections are abstracted to the
leading shape and columns lines (no claim inspects them). -/
def summarize_csv (df : Table) : String :=
  if df.isEmpty then "❌ CSV file trống hoặc không có dữ liệu hợp lệ."
  else
    "Dataset shape: (" ++ toString ((df.cols.headD ("", ColData.numeric [])).2.size) ++
      ", " ++ toString df.cols.length ++ ")\nColumns: " ++
      String.intercalate ", " (df.cols.map (fun c => c.1))

/-- Embeds csv_service.ask_gemini_about_data: exceptions from the model call
are caught and rendered as a ❌-prefixed reply citing the file name; a falsy
response or text yields the placeholder citing the file name. -/
def ask_gemini_about_data (outcome : AtomicOutcome) (file_name : String) : String :=
  match outcome with
  | .error e => "❌ Error analyzing **" ++ file_name ++ "**: " ++ e
  | .ok none => "(No response from Gemini about " ++ file_name ++ ")"
  | .ok (some t) =>
    if t = "" then "(No response from Gemini about " ++ file_name ++ ")" else pyStrip t

/-- Embeds csv_service.ask_gemini_about_data_streaming: every raw chunk with
nonempty text is yielded unmodified and accumulated into full_text; after a
normal end of the stream, full_text.strip() is yielded once more when it is
truthy; an exception after the chunks in `raw` is caught and one ❌ error
chunk is yielded instead (skipping the final duplicate yield). -/
def ask_gemini_about_data_streaming (raw : List String) (err : Option String)
    (file_name : String) : List String :=
  let frags := raw.filter (fun c => c ≠ "")
  match err with
  | some e => frags ++ ["❌ Error analyzing **" ++ file_name ++ "**: " ++ e]
  | none =>
    frags ++
      (if pyStrip (String.join frags) = "" then [] else [pyStrip (String.join frags)])

/-! ### Histogram-trigger detection (csv_router lines 80-83 and 177-180)

The router runs re.search of the fixed pattern

  (?:histogram|v·∫Ω bi·ªÉu ƒë·ªì|bi·ªÉu ƒë·ªì ph√¢n ph·ªëi|ph√¢n ph·ªëi|
     v·∫Ω histogram|plot|chart|graph)
  \s*(?:c·ªôt |cho |c·ªßa |v·ªÅ |for |of |)\s*(?:c·ªôt |column |)\s*
  [quote]?([\w\s]+?)[quote]?(\s*(?:d√πm t√¥i|nha|please|\s*$|\b))

over question.lower() and, on a match, uses the captured group 1 (stripped)
as the column name. The pattern is hand-compiled below into a backtracking
matcher that mirrors the regex engine: start positions are tried left to
right, alternation branches in written order, greedy stars longest first,
the lazy capture shortest first. The alternation literals are copied
byte-for-byte from the source file. -/

/-- Python regex word character for this pattern, modelled over ASCII
alphanumerics plus underscore. -/
def isWordChar (c : Char) : Bool := c.isAlphanum || c == '_'

/-- Positions reachable by consuming leading whitespace, shortest
consumption first; a position is the preceding character paired with the
remaining characters. -/
def wsPositions : Option Char → List Char → List (Option Char × List Char)
  | prev, [] => [(prev, [])]
  | prev, c :: cs =>
    if c.isWhitespace then (prev, c :: cs) :: wsPositions (some c) cs
    else [(prev, c :: cs)]

/-- A greedy whitespace star: the reachable positions longest first. -/
def wsGreedy (prev : Option Char) (rest : List Char) : List (Option Char × List Char) :=
  (wsPositions prev rest).reverse

/-- Position after consuming one literal, when it heads the remaining
characters. -/
def litConsume (lit : String) (prev : Option Char) (rest : List Char) :
    Option (Option Char × List Char) :=
  if swChars lit.data rest then
    some ((match lit.data.getLast? with | some c => some c | none => prev),
      rest.drop lit.data.length)
  else none

/-- Ordered literal alternation: the position after each alternative that
matches, in written order. -/
def litAlternatives (lits : List String) (prev : Option Char) (rest : List Char) :
    List (Option Char × List Char) :=
  lits.filterMap (fun lit => litConsume lit prev rest)

/-- Python word boundary at a position: exactly one neighbouring character
is a word character (a missing neighbour counts as non-word). -/
def atBoundary (prev : Option Char) (rest : List Char) : Bool :=
  let a := (prev.map isWordChar).getD false
  let b := (rest.head?.map isWordChar).getD false
  a != b

/-- The trailing group of the pattern matches at a position: optional
whitespace, then one of the closing literals, trailing whitespace up to the
end of the string, or a word boundary. -/
def tailMatches (prev : Option Char) (rest : List Char) : Bool :=
  (wsGreedy prev rest).any (fun pr =>
    swChars ("d√πm t√¥i").data pr.2 || swChars "nha".data pr.2
      || swChars "please".data pr.2 || pr.2.all Char.isWhitespace
      || atBoundary pr.1 pr.2)

/-- Optional closing quote, then the trailing group. -/
def quoteThenTail (prev : Option Char) (rest : List Char) : Bool :=
  (match rest with
   | q :: cs => (q == '\x27' || q == '"') && tailMatches (some q) cs
   | [] => false)
  || tailMatches prev rest

/-- The lazy capture group of word or whitespace characters: captures are
tried shortest first (at least one character); the first capture after
which an optional closing quote and the trailing group match is returned. -/
def tryCapture (_prev : Option Char) (rest : List Char) (acc : List Char) :
    Option (List Char) :=
  match rest with
  | [] => none
  | c :: cs =>
    if isWordChar c || c.isWhitespace then
      let acc2 := acc ++ [c]
      if quoteThenTail (some c) cs then some acc2
      else tryCapture (some c) cs acc2
    else none

/-- The trigger alternation literals, copied from the source. -/
def triggerLits : List String :=
  ["histogram", "v·∫Ω bi·ªÉu ƒë·ªì", "bi·ªÉu ƒë·ªì ph√¢n ph·ªëi",
   "ph√¢n ph·ªëi", "v·∫Ω histogram", "plot", "chart", "graph"]

/-- The first filler alternation literals (last alternative empty). -/
def filler1Lits : List String := ["c·ªôt ", "cho ", "c·ªßa ", "v·ªÅ ", "for ", "of ", ""]

/-- The second filler alternation literals (last alternative empty). -/
def filler2Lits : List String := ["c·ªôt ", "column ", ""]

/-- Optional opening quote: the consuming position first (greedy). -/
def quoteOptions (prev : Option Char) (rest : List Char) :
    List (Option Char × List Char) :=
  match rest with
  | q :: cs =>
    if q == '\x27' || q == '"' then [(some q, cs), (prev, q :: cs)] else [(prev, q :: cs)]
  | [] => [(prev, [])]

/-- One attempt of the full pattern at a fixed start position, with the
backtracking order of the regex engine; returns group 1 of the first parse
found. -/
def matchHere (prev : Option Char) (rest : List Char) : Option (List Char) :=
  (litAlternatives triggerLits prev rest).findSome? (fun p1 =>
    (wsGreedy p1.1 p1.2).findSome? (fun p2 =>
      (litAlternatives filler1Lits p2.1 p2.2).findSome? (fun p3 =>
        (wsGreedy p3.1 p3.2).findSome? (fun p4 =>
          (litAlternatives filler2Lits p4.1 p4.2).findSome? (fun p5 =>
            (wsGreedy p5.1 p5.2).findSome? (fun p6 =>
              (quoteOptions p6.1 p6.2).findSome? (fun p7 =>
                tryCapture p7.1 p7.2 [])))))))

/-- re.search: the pattern is attempted at every start position from the
left; the first start position with a match wins. -/
def searchCapture : Option Char → List Char → Option (List Char)
  | prev, [] => matchHere prev []
  | prev, c :: cs =>
    match matchHere prev (c :: cs) with
    | some cap => some cap
    | none => searchCapture (some c) cs

/-- Embeds the histogram-request detection of csv_router: re.search of the
fixed trigger pattern over question.lower(), returning the captured group-1
text when the search matched. -/
def histogram_trigger_capture (question : String) : Option String :=
  (searchCapture none (pyLower question).data).map (fun cs => ⟨cs⟩)

/-! ### CSV router -/

/-- A serialized history entry as built by csv_router stream_response
(dict with keys role, content, file_url, timestamp). -/
structure CsvSer where
  role : String
  content : String
  file_url : Option String
  timestamp : String
deriving DecidableEq

/-- Embeds the history_dict comprehension of csv_router (lines 132-140):
msg.timestamp.isoformat() is called unconditionally. -/
def serialize_csv_history : List ChatMessage → Except String (List CsvSer)
  | [] => .ok []
  | m :: rest =>
    match m.timestamp with
    | none => .error "AttributeError: NoneType object has no attribute isoformat"
    | some t =>
      match serialize_csv_history rest with
      | .ok tl =>
        .ok ({ role := m.role, content := m.content, file_url := m.file_url,
               timestamp := isoformat t } :: tl)
      | .error e => .error e

/-- Embeds the history update of csv_router (lines 112-129 and 195-212):
one user turn carrying the question and the file URL, one assistant turn
carrying the finalized content, both stamped with the same instant. -/
def csv_updated_history (history : List ChatMessage) (question content : String)
    (file_url : Option String) (now : Nat) : List ChatMessage :=
  history ++
    [{ role := "user", content := question, file_url := file_url, timestamp := some now },
     { role := "assistant", content := content, timestamp := some now }]

/-- Input source of the CSV endpoint: an uploaded file (decoded content and
file name), a URL (downloaded content and the URL string), or neither. -/
inductive CsvSource where
  | file (content : String) (name : String)
  | url (content : String) (urlStr : String)
  | noSource
deriving DecidableEq

/-- File name derived from a URL: its last slash-separated component, or the
fallback when that component is empty (csv_router line 73 and 171). -/
def urlFileName (urlStr : String) : String :=
  let n := (urlStr.splitOn "/").getLastD ""
  if n = "" then "remote_file.csv" else n

/-- Trailing events of csv_router stream_response after the reply or chunk
events: compute the committed content (full_response when response is falsy,
response otherwise), reconcile the history, and yield the terminal history
event, or one error event when serialization raises. -/
def csv_finish (history_messages : List ChatMessage) (question : String)
    (file_url : Option String) (respOpt : Option String) (full_response : String)
    (now : Nat) : List (Event (List CsvSer)) :=
  let content :=
    match respOpt with
    | some r => if r = "" then full_response else r
    | none => full_response
  let updated := csv_updated_history history_messages question content file_url now
  match serialize_csv_history updated with
  | .ok hd => [Event.history hd]
  | .error e => [Event.error e]

/-- Core of csv_router.stream_response after the source was loaded (lines
79-142): the histogram-trigger search runs over the question; on a capture,
the histogram branch replies from the extractor with no model call (counted
0); otherwise the AI-analysis branch: a ❌-prefixed summary aborts with one
error event; otherwise the streaming or atomic model call (counted 1) and
the history update. The second component counts downstream generation
invocations. -/
def csv_stream_core (history_messages : List ChatMessage) (question : String)
    (file_url : Option String) (file_name : String)
    (df : Table) (stream : Bool) (atomic : AtomicOutcome) (raw : List String)
    (rawErr : Option String) (now : Nat) : List (Event (List CsvSer)) × Nat :=
  match histogram_trigger_capture question with
  | some mcol =>
    let column := pyStrip mcol
    let response := histReply column (generate_histogram_data df column)
    ([Event.reply response] ++
       csv_finish history_messages question file_url (some response) response now, 0)
  | none =>
    let summary := summarize_csv df
    if pyStartsWith summary "❌" then ([.error summary], 0)
    else if stream then
      let chunks := ask_gemini_about_data_streaming raw rawErr file_name
      (chunks.map Event.chunk ++
         csv_finish history_messages question file_url none (String.join chunks) now, 1)
    else
      let response := ask_gemini_about_data atomic file_name
      ([Event.reply response] ++
         csv_finish history_messages question file_url (some response) response now, 1)

/-- Embeds csv_router.stream_response (lines 47-145). `hist` is the
json.loads outcome; `df` is the pandas parse of the source content; the
histogram-trigger search runs over the question inside csv_stream_core. The
second component counts downstream generation invocations. -/
def csv_stream_response (hist : Option (List ChatMessage)) (question : String)
    (src : CsvSource) (df : Table) (stream : Bool)
    (atomic : AtomicOutcome) (raw : List String) (rawErr : Option String)
    (now : Nat) : List (Event (List CsvSer)) × Nat :=
  match hist with
  | none => ([.error "422: Invalid JSON in history"], 0)
  | some history_messages =>
    match src with
    | .noSource => ([.error "Must provide either file or URL."], 0)
    | .file content name =>
      if pyStrip content = "" then
        ([.error "The CSV file is empty or contains no data."], 0)
      else
        csv_stream_core history_messages question (some ("data/processed/" ++ name))
          name df stream atomic raw rawErr now
    | .url _content urlStr =>
      csv_stream_core history_messages question (some urlStr) (urlFileName urlStr)
        df stream atomic raw rawErr now

/-- Response model CSVChatResponse of the non-streaming CSV endpoint. -/
structure CSVChatResponse where
  reply : String
  history : List ChatMessage
deriving DecidableEq

/-- Embeds the non-streaming branch of csv_router.chat_with_csv (lines
149-214): 422 on malformed history JSON, 400 on a missing source, empty
file or ❌-prefixed summary; on a histogram-trigger capture from the
question, the extractor branch without model call (counted 0), otherwise
the AI branch with one atomic call (counted 1); no serialization step, the
reconciled history is returned directly. -/
def csv_endpoint_nostream (hist : Option (List ChatMessage)) (question : String)
    (src : CsvSource) (df : Table)
    (atomic : AtomicOutcome) (now : Nat) : Except HttpError CSVChatResponse × Nat :=
  match hist with
  | none => (.error (.http 422 "Invalid JSON in history"), 0)
  | some history_messages =>
    let core := fun (file_url : Option String) (file_name : String) =>
      match histogram_trigger_capture question with
      | some mcol =>
        let column := pyStrip mcol
        let response := histReply column (generate_histogram_data df column)
        ((.ok { reply := response,
                history := csv_updated_history history_messages question response file_url now } :
            Except HttpError CSVChatResponse), 0)
      | none =>
        let summary := summarize_csv df
        if pyStartsWith summary "❌" then (.error (.http 400 summary), 0)
        else
          let response := ask_gemini_about_data atomic file_name
          (.ok { reply := response,
                 history := csv_updated_history history_messages question response file_url now }, 1)
    match src with
    | .noSource => (.error (.http 400 "Must provide either file or URL."), 0)
    | .file content name =>
      if pyStrip content = "" then
        (.error (.http 400 "The CSV file is empty or contains no data."), 0)
      else core (some ("data/processed/" ++ name)) name
    | .url _content urlStr => core (some urlStr) (urlFileName urlStr)

/-! ### Image router -/

/-- A serialized history entry as built by image_router stream_response
(dict with keys role, content, image_url, timestamp). -/
structure ImgSer where
  role : String
  content : String
  image_url : Option String
  timestamp : String
deriving DecidableEq

/-- Embeds the history_dict comprehension of image_router (lines 78-86):
msg.timestamp.isoformat() is called unconditionally. -/
def serialize_image_history : List ChatMessage → Except String (List ImgSer)
  | [] => .ok []
  | m :: rest =>
    match m.timestamp with
    | none => .error "AttributeError: NoneType object has no attribute isoformat"
    | some t =>
      match serialize_image_history rest with
      | .ok tl =>
        .ok ({ role := m.role, content := m.content, image_url := m.image_url,
               timestamp := isoformat t } :: tl)
      | .error e => .error e

/-- Embeds image_router.stream_response (lines 37-91). The downstream image
service is not part of this repository; its atomic reply and streamed chunks
are oracle parameters. json.loads of the history is inside the outer try, so
a malformed history yields one error event (the JSONDecodeError rendering). -/
def image_stream_response (hist : Option (List ChatMessage)) (question imageUrl : String)
    (stream : Bool) (atomicResp : String) (chunks : List String) (now : Nat) :
    List (Event (List ImgSer)) :=
  match hist with
  | none => [.error "Expecting value: line 1 column 1 (char 0)"]
  | some history_messages =>
    let pieces : List String × Option String :=
      if stream then (chunks, none) else ([], some atomicResp)
    let full_response := String.join pieces.1
    let contentEvents : List (Event (List ImgSer)) :=
      match pieces.2 with
      | some r => [Event.reply r]
      | none => pieces.1.map Event.chunk
    let content :=
      match pieces.2 with
      | some r => if r = "" then pyStrip full_response else r
      | none => pyStrip full_response
    let updated := history_messages ++
      [{ role := "user", content := question, image_url := some imageUrl, timestamp := some now },
       { role := "assistant", content := content, timestamp := some now }]
    match serialize_image_history updated with
    | .ok hd => contentEvents ++ [Event.history hd]
    | .error e => contentEvents ++ [Event.error e]

/-- Embeds the non-streaming branch of image_router.chat_with_image (lines
95-118): json.loads of the history is NOT wrapped in a try/except here, so a
malformed history raises the JSONDecodeError unhandled (an HTTP 500), unlike
the other two routers; on success the raw history dicts are returned with
two appended entries. -/
def image_endpoint_nostream (hist : Option (List ChatMessage)) (question imageUrl : String)
    (response : String) (now : Nat) : Except HttpError (String × List ChatMessage) :=
  match hist with
  | none =>
    .error (.unhandled "json.decoder.JSONDecodeError: Expecting value: line 1 column 1 (char 0)")
  | some history_messages =>
    .ok (response, history_messages ++
      [{ role := "user", content := question, image_url := some imageUrl, timestamp := some now },
       { role := "assistant", content := response, timestamp := some now }])

/-! ### Helper lemmas -/

/-- Whether a non-streaming endpoint result is an HTTPException with status
code 422. -/
def is422 {α : Type} : Except HttpError α → Bool
  | .error (.http 422 _) => true
  | _ => false

/-- When every timestamp of the history is present, the chat serializer
succeeds and maps each turn to its rendered entry. -/
theorem serialize_history_eq (l : List ChatMessage) (h : ∀ m ∈ l, m.timestamp ≠ none) :
    serialize_history l = .ok (l.map (fun m =>
      { role := m.role, content := m.content,
        timestamp := isoformat (m.timestamp.getD 0) })) := by
  induction l with
  | nil => rfl
  | cons m rest ih =>
    have hm := h m (List.mem_cons_self _ _)
    match hts : m.timestamp with
    | none => exact absurd hts hm
    | some t =>
      simp [serialize_history, hts, ih (fun x hx => h x (List.mem_cons_of_mem _ hx))]

/-- When some timestamp of the history is absent, the chat serializer
raises (returns an error). -/
theorem serialize_history_fails (l : List ChatMessage)
    (h : ∃ m ∈ l, m.timestamp = none) :
    ∃ e, serialize_history l = .error e := by
  induction l with
  | nil => obtain ⟨m, hm, _⟩ := h; exact absurd hm (List.not_mem_nil m)
  | cons m rest ih =>
    match hts : m.timestamp with
    | none =>
      exact ⟨"AttributeError: NoneType object has no attribute isoformat",
        by simp [serialize_history, hts]⟩
    | some t =>
      obtain ⟨x, hx, hxt⟩ := h
      rcases List.mem_cons.1 hx with hx | hx
      · subst hx; rw [hts] at hxt; cases hxt
      · obtain ⟨e, he⟩ := ih ⟨x, hx, hxt⟩
        exact ⟨e, by simp [serialize_history, hts, he]⟩

/-- When every timestamp of the history is present, the CSV serializer
succeeds and maps each turn to its rendered entry. -/
theorem serialize_csv_history_eq (l : List ChatMessage) (h : ∀ m ∈ l, m.timestamp ≠ none) :
    serialize_csv_history l = .ok (l.map (fun m =>
      { role := m.role, content := m.content, file_url := m.file_url,
        timestamp := isoformat (m.timestamp.getD 0) })) := by
  induction l with
  | nil => rfl
  | cons m rest ih =>
    have hm := h m (List.mem_cons_self _ _)
    match hts : m.timestamp with
    | none => exact absurd hts hm
    | some t =>
      simp [serialize_csv_history, hts, ih (fun x hx => h x (List.mem_cons_of_mem _ hx))]

/-- Every turn of a reconciled chat history has a timestamp when the prior
history is fully timestamped (the two new turns carry `some now`). -/
theorem chat_updated_history_timestamps (h : List ChatMessage) (message content : String)
    (now : Nat) (hts : ∀ m ∈ h, m.timestamp ≠ none) :
    ∀ m ∈ chat_updated_history h message content now, m.timestamp ≠ none := by
  intro m hm
  rcases List.mem_append.1 hm with hm | hm
  · exact hts m hm
  · rcases List.mem_cons.1 hm with rfl | hm
    · simp
    · rcases List.mem_cons.1 hm with rfl | hm
      · simp
      · exact absurd hm (List.not_mem_nil m)

/-- Every turn of a reconciled CSV history has a timestamp when the prior
history is fully timestamped. -/
theorem csv_updated_history_timestamps (h : List ChatMessage) (question content : String)
    (fu : Option String) (now : Nat) (hts : ∀ m ∈ h, m.timestamp ≠ none) :
    ∀ m ∈ csv_updated_history h question content fu now, m.timestamp ≠ none := by
  intro m hm
  rcases List.mem_append.1 hm with hm | hm
  · exact hts m hm
  · rcases List.mem_cons.1 hm with rfl | hm
    · simp
    · rcases List.mem_cons.1 hm with rfl | hm
      · simp
      · exact absurd hm (List.not_mem_nil m)

/-- A character-list match against a prefix of s also matches s extended. -/
theorem swChars_append_right (p s t : List Char) (h : swChars p s = true) :
    swChars p (s ++ t) = true := by
  induction p generalizing s with
  | nil => rfl
  | cons a p ih =>
    cases s with
    | nil => simp [swChars] at h
    | cons b s =>
      simp only [swChars, Bool.and_eq_true] at h
      simp only [List.cons_append, swChars, Bool.and_eq_true]
      exact ⟨h.1, ih s h.2⟩

/-- The chat error reply starts with the ❌ marker for every message. -/
theorem chat_error_marker (e : String) :
    pyStartsWith ("❌ Error while generating text: " ++ e) "❌" = true := by
  show swChars _ (("❌ Error while generating text: " ++ e).data) = true
  rw [show ("❌ Error while generating text: " ++ e).data
      = ("❌ Error while generating text: ").data ++ e.data from rfl]
  exact swChars_append_right _ _ _ (by decide)

/-- The CSV error reply starts with the ❌ marker for every file name and
message. -/
theorem csv_error_marker (n e : String) :
    pyStartsWith ("❌ Error analyzing **" ++ n ++ "**: " ++ e) "❌" = true := by
  show swChars _ (("❌ Error analyzing **" ++ n ++ "**: " ++ e).data) = true
  rw [show ("❌ Error analyzing **" ++ n ++ "**: " ++ e).data
      = ("❌ Error analyzing **").data ++ (n.data ++ ("**: ").data ++ e.data) from by
    simp [String.data_append]]
  exact swChars_append_right _ _ _ (by decide)

/-- String.join distributes over appending one final element. -/
theorem join_concat (l : List String) (x : String) :
    String.join (l ++ [x]) = String.join l ++ x := by
  simp [String.join, List.foldl_append]

/-- Appending anything to a nonempty string stays nonempty. -/
theorem append_left_ne_empty (s t : String) (hs : s ≠ "") : s ++ t ≠ "" := by
  intro h
  apply hs
  have hd : s.data ++ t.data = [] := congrArg String.data h
  exact congrArg String.mk (List.append_eq_nil.1 hd).1

/-- The histogram reply built from a successful extraction is nonempty. -/
theorem histReply_ok_ne (column name : String) (bins : List ℚ) (counts : List Nat) :
    histReply column (.ok name bins counts) ≠ "" := by
  unfold histReply
  apply append_left_ne_empty
  apply append_left_ne_empty
  apply append_left_ne_empty
  apply append_left_ne_empty
  apply append_left_ne_empty
  apply append_left_ne_empty
  apply append_left_ne_empty
  apply append_left_ne_empty
  decide

/-- Success shape of a text-chat streaming run with fully timestamped prior
history: chunk events for every relayed fragment, then one history event
whose assistant content is the space-joined, stripped fragment list. -/
theorem chat_stream_success (h : List ChatMessage) (hts : ∀ m ∈ h, m.timestamp ≠ none)
    (message : String) (atomic : AtomicOutcome) (raw : List String)
    (rawErr : Option String) (now : Nat) :
    ∃ hd, serialize_history (chat_updated_history h message
        (pyStrip (String.join ((ask_gemini_text_streaming raw rawErr).map (fun s => s ++ " "))))
        now) = .ok hd
    ∧ chat_stream_response (some h) message true atomic raw rawErr now
        = (ask_gemini_text_streaming raw rawErr).map Event.chunk ++ [Event.history hd] := by
  have hser := serialize_history_eq _ (chat_updated_history_timestamps h message
    (pyStrip (String.join ((ask_gemini_text_streaming raw rawErr).map (fun s => s ++ " ")))) now hts)
  exact ⟨_, hser, by simp [chat_stream_response, hser]⟩

/-- Success shape of a CSV streaming AI-analysis run with fully timestamped
prior history: chunk events for every relayed fragment, then one history
event whose assistant content is the separator-free concatenation of the
relayed fragments. -/
theorem csv_stream_success (h : List ChatMessage) (hts : ∀ m ∈ h, m.timestamp ≠ none)
    (q c n : String) (raw : List String) (rawErr : Option String) (df : Table)
    (atomic : AtomicOutcome) (now : Nat)
    (hntrig : histogram_trigger_capture q = none)
    (hc : ¬ pyStrip c = "") (hsum : pyStartsWith (summarize_csv df) "❌" = false) :
    ∃ hd, serialize_csv_history (csv_updated_history h q
        (String.join (ask_gemini_about_data_streaming raw rawErr n))
        (some ("data/processed/" ++ n)) now) = .ok hd
    ∧ (csv_stream_response (some h) q (.file c n) df true atomic raw rawErr now).1
        = (ask_gemini_about_data_streaming raw rawErr n).map Event.chunk
            ++ [Event.history hd] := by
  have hser := serialize_csv_history_eq
    (csv_updated_history h q (String.join (ask_gemini_about_data_streaming raw rawErr n))
      (some ("data/processed/" ++ n)) now)
    (csv_updated_history_timestamps h q _ _ now hts)
  exact ⟨_, hser,
    by simp [csv_stream_response, hc, csv_stream_core, hntrig, hsum, csv_finish, hser]⟩

/-! ### Claim theorems -/

/-- C1: for every completed exchange the reconciled history has length equal
to the prior length plus 2, the two appended turns have roles user then
assistant in that order (text-chat and CSV reconcilers alike), the history
event emitted to the client carries exactly that reconciled sequence, and an
early failure before any model call (malformed history JSON) emits only an
error event and appends no turns. -/
theorem C1_reconciliation (h : List ChatMessage) (message content q c2 : String)
    (fu : Option String) (now : Nat) (hts : ∀ m ∈ h, m.timestamp ≠ none)
    (stream : Bool) (atomic : AtomicOutcome) (raw : List String)
    (rawErr : Option String) (src : CsvSource) (df : Table) :
    (chat_updated_history h message content now).length = h.length + 2
    ∧ (chat_updated_history h message content now).map ChatMessage.role
        = h.map ChatMessage.role ++ ["user", "assistant"]
    ∧ (csv_updated_history h q c2 fu now).length = h.length + 2
    ∧ (csv_updated_history h q c2 fu now).map ChatMessage.role
        = h.map ChatMessage.role ++ ["user", "assistant"]
    ∧ (∃ hd, serialize_history (chat_updated_history h message content now) = .ok hd
        ∧ hd.length = h.length + 2
        ∧ hd.map ChatSer.role = h.map ChatMessage.role ++ ["user", "assistant"])
    ∧ chat_stream_response none message stream atomic raw rawErr now
        = [Event.error "422: Invalid JSON in history"]
    ∧ csv_stream_response none q src df stream atomic raw rawErr now
        = ([Event.error "422: Invalid JSON in history"], 0) := by
  refine ⟨by simp [chat_updated_history], by simp [chat_updated_history],
    by simp [csv_updated_history], by simp [csv_updated_history], ?_, rfl, rfl⟩
  refine ⟨_, serialize_history_eq _ (chat_updated_history_timestamps h message content now hts), ?_, ?_⟩
  · simp [chat_updated_history]
  · simp [chat_updated_history]

/-- C1 witness at a concrete input. -/
theorem C1_reconciliation_witness :
    (chat_updated_history [{ role := "user", content := "old", timestamp := some 5 }]
        "msg" "ans" 9).length = 1 + 2
    ∧ (chat_updated_history [{ role := "user", content := "old", timestamp := some 5 }]
        "msg" "ans" 9).map ChatMessage.role = ["user"] ++ ["user", "assistant"] := by
  have := C1_reconciliation [{ role := "user", content := "old", timestamp := some 5 }]
    "msg" "ans" "q" "a2" none 9 (by decide) true (.ok none) [] none .noSource ⟨[]⟩
  refine ⟨?_, ?_⟩
  · simpa using this.1
  · simpa using this.2.1

/-- C10: the message schema permits an absent timestamp; for any history
containing such a turn the text-chat handler fails after the model call:
the streaming path emits the chunk or reply events and then one error event
in place of the terminal history event, and the non-streaming path raises an
unhandled error, because serialization calls isoformat on every timestamp. -/
theorem C10_null_timestamp_failure (h : List ChatMessage)
    (hnone : ∃ m ∈ h, m.timestamp = none) (message : String) (stream : Bool)
    (atomic : AtomicOutcome) (raw : List String) (rawErr : Option String) (now : Nat) :
    (∃ e, chat_stream_response (some h) message stream atomic raw rawErr now
        = (if stream then (ask_gemini_text_streaming raw rawErr).map Event.chunk
           else [Event.reply (ask_gemini_text atomic)]) ++ [Event.error e])
    ∧ (∃ e, chat_endpoint_nostream (some h) message atomic now = .error (.unhandled e)) := by
  have hup : ∀ content, ∃ m ∈ chat_updated_history h message content now, m.timestamp = none := by
    intro content
    obtain ⟨m, hm, hmt⟩ := hnone
    exact ⟨m, List.mem_append.2 (Or.inl hm), hmt⟩
  constructor
  · cases stream with
    | true =>
      obtain ⟨e, he⟩ := serialize_history_fails _
        (hup (pyStrip (String.join ((ask_gemini_text_streaming raw rawErr).map (fun c => c ++ " ")))))
      exact ⟨e, by simp [chat_stream_response, he]⟩
    | false =>
      by_cases hr : ask_gemini_text atomic = ""
      · obtain ⟨e, he⟩ := serialize_history_fails _ (hup (pyStrip (String.join [])))
        exact ⟨e, by simp [chat_stream_response, hr, he]⟩
      · obtain ⟨e, he⟩ := serialize_history_fails _ (hup (ask_gemini_text atomic))
        exact ⟨e, by simp [chat_stream_response, hr, he]⟩
  · obtain ⟨e, he⟩ := serialize_history_fails _ (hup (ask_gemini_text atomic))
    exact ⟨e, by simp [chat_endpoint_nostream, he]⟩

/-- C10 witness at a concrete input. -/
theorem C10_null_timestamp_failure_witness :
    (∃ e, chat_stream_response (some [{ role := "user", content := "hi" }]) "msg" true
        (.ok none) ["ok"] none 0
        = (if true then (ask_gemini_text_streaming ["ok"] none).map Event.chunk
           else [Event.reply (ask_gemini_text (.ok none))]) ++ [Event.error e])
    ∧ (∃ e, chat_endpoint_nostream (some [{ role := "user", content := "hi" }]) "msg"
        (.ok none) 0 = .error (.unhandled e)) :=
  C10_null_timestamp_failure [{ role := "user", content := "hi" }]
    ⟨{ role := "user", content := "hi" }, by decide, rfl⟩ "msg" true (.ok none) ["ok"] none 0

/-- C4 counterexample: on malformed history JSON the image endpoint's
non-streaming path does not return HTTP 422; the JSONDecodeError from the
unguarded json.loads propagates as an unhandled exception. -/
theorem C4_counterexample :
    image_endpoint_nostream none "q" "http://127.0.0.1:8000/temp_uploads/x.png" "resp" 0
      = .error (.unhandled
          "json.decoder.JSONDecodeError: Expecting value: line 1 column 1 (char 0)")
    ∧ is422 (image_endpoint_nostream none "q" "http://127.0.0.1:8000/temp_uploads/x.png"
        "resp" 0) = false := by
  exact ⟨rfl, rfl⟩

/-- C4 amended: on malformed history JSON the text-chat and CSV
non-streaming paths return HTTP 422, while the image non-streaming path
raises the JSON decode error unhandled; every streaming path emits exactly
one error event, with no further events and no history update. -/
theorem C4_malformed_history (message q iu r : String) (stream : Bool)
    (atomic : AtomicOutcome) (raw chunks : List String) (rawErr : Option String)
    (src : CsvSource) (df : Table) (now : Nat) :
    chat_endpoint_nostream none message atomic now
        = .error (.http 422 "Invalid JSON in history")
    ∧ (csv_endpoint_nostream none q src df atomic now).1
        = .error (.http 422 "Invalid JSON in history")
    ∧ (∃ e, image_endpoint_nostream none q iu r now = .error (.unhandled e))
    ∧ is422 (image_endpoint_nostream none q iu r now) = false
    ∧ chat_stream_response none message stream atomic raw rawErr now
        = [Event.error "422: Invalid JSON in history"]
    ∧ csv_stream_response none q src df stream atomic raw rawErr now
        = ([Event.error "422: Invalid JSON in history"], 0)
    ∧ image_stream_response none q iu stream r chunks now
        = [Event.error "Expecting value: line 1 column 1 (char 0)"] :=
  ⟨rfl, rfl, ⟨_, rfl⟩, rfl, rfl, rfl, rfl⟩

/-- C2 counterexample: a text-chat incremental run relaying the fragments
ab and cd commits the assistant content "ab cd" (fragments joined with a
space and stripped), not the separator-free concatenation "abcd". -/
theorem C2_counterexample :
    chat_stream_response (some []) "hi" true (.ok none) ["ab", "cd"] none 0
      = [Event.chunk "ab", Event.chunk "cd",
         Event.history
           [{ role := "user", content := "hi", timestamp := isoformat 0 },
            { role := "assistant", content := "ab cd", timestamp := isoformat 0 }]]
    ∧ ("ab cd" : String) ≠ "ab" ++ "cd" := by decide

/-- C3 counterexample: a text-chat incremental run whose downstream raises
after relaying Hello yields the trailing error fragment as an ordinary
chunk and then still emits the terminal reconciliation event, committing
the partial output plus the error text as the assistant turn. -/
theorem C3_counterexample :
    chat_stream_response (some []) "hi" true (.ok none) ["Hello"] (some "boom") 0
      = [Event.chunk "Hello", Event.chunk "❌ Error while generating text: boom",
         Event.history
           [{ role := "user", content := "hi", timestamp := isoformat 0 },
            { role := "assistant", content := "Hello ❌ Error while generating text: boom",
              timestamp := isoformat 0 }]] := by decide

/-- C8 counterexample: an atomic-mode run whose downstream returns no text
commits the placeholder reply, which does not start with the error marker
❌ used for genuine failures. -/
theorem C8_counterexample :
    ask_gemini_text (.ok none) = "(No response from Gemini)"
    ∧ pyStartsWith (ask_gemini_text (.ok none)) "❌" = false
    ∧ chat_endpoint_nostream (some []) "q" (.ok none) 0
        = .ok { reply := "(No response from Gemini)",
                history := chat_updated_history [] "q" "(No response from Gemini)" 0 } :=
  ⟨by decide, by decide, rfl⟩

/-- C9 counterexample: a CSV-mode downstream stream yielding the single
non-empty whitespace fragment produces no additional final chunk, because
the duplicate yield is guarded by the truthiness of full_text.strip(). -/
theorem C9_counterexample :
    ask_gemini_about_data_streaming [" "] none "f.csv" = [" "]
    ∧ (ask_gemini_about_data_streaming [" "] none "f.csv").length = 1
    ∧ (" " : String) ≠ "" := by decide

/-- C2 amended: in every incremental-mode run the assistant content
committed to the reconciled history is, for the CSV endpoint, the relayed
chunk fragments concatenated with no separator in production order, and for
the text-chat endpoint, the relayed fragments joined with single spaces and
stripped of outer whitespace. -/
theorem C2_committed_content (h : List ChatMessage) (hts : ∀ m ∈ h, m.timestamp ≠ none)
    (message q c n : String) (raw : List String) (rawErr : Option String)
    (df : Table) (atomic : AtomicOutcome) (now : Nat)
    (hntrig : histogram_trigger_capture q = none)
    (hc : ¬ pyStrip c = "") (hsum : pyStartsWith (summarize_csv df) "❌" = false) :
    (∃ hd, serialize_history (chat_updated_history h message
          (pyStrip (String.join ((ask_gemini_text_streaming raw rawErr).map (fun s => s ++ " "))))
          now) = .ok hd
      ∧ chat_stream_response (some h) message true atomic raw rawErr now
          = (ask_gemini_text_streaming raw rawErr).map Event.chunk ++ [Event.history hd])
    ∧ (∃ hd, serialize_csv_history (csv_updated_history h q
          (String.join (ask_gemini_about_data_streaming raw rawErr n))
          (some ("data/processed/" ++ n)) now) = .ok hd
      ∧ (csv_stream_response (some h) q (.file c n) df true atomic raw rawErr now).1
          = (ask_gemini_about_data_streaming raw rawErr n).map Event.chunk
              ++ [Event.history hd]) :=
  ⟨chat_stream_success h hts message atomic raw rawErr now,
   csv_stream_success h hts q c n raw rawErr df atomic now hntrig hc hsum⟩

/-- C2 amended witness at a concrete input. -/
theorem C2_committed_content_witness :
    (∃ hd, serialize_history (chat_updated_history [] "m"
          (pyStrip (String.join ((ask_gemini_text_streaming ["x ", " y"] none).map (fun s => s ++ " "))))
          0) = .ok hd
      ∧ chat_stream_response (some []) "m" true (.ok none) ["x ", " y"] none 0
          = (ask_gemini_text_streaming ["x ", " y"] none).map Event.chunk ++ [Event.history hd])
    ∧ (∃ hd, serialize_csv_history (csv_updated_history [] "q"
          (String.join (ask_gemini_about_data_streaming ["x ", " y"] none "d.csv"))
          (some ("data/processed/" ++ "d.csv")) 0) = .ok hd
      ∧ (csv_stream_response (some []) "q" (.file "a,b" "d.csv")
            ⟨[("A", ColData.numeric [some 1])]⟩ true (.ok none) ["x ", " y"] none 0).1
          = (ask_gemini_about_data_streaming ["x ", " y"] none "d.csv").map Event.chunk
              ++ [Event.history hd]) :=
  C2_committed_content [] (by decide) "m" "q" "a,b" "d.csv" ["x ", " y"] none
    ⟨[("A", ColData.numeric [some 1])]⟩ (.ok none) 0 (by decide) (by decide) (by decide)

/-- C3 amended: when the downstream fragment sequence raises after some
fragments were relayed, the relay emits exactly one trailing error fragment
as an ordinary chunk, and the stream then still emits the terminal
reconciliation event, committing the partial output together with the error
text into the history (text-chat and CSV streaming paths alike). -/
theorem C3_midstream_failure (h : List ChatMessage) (hts : ∀ m ∈ h, m.timestamp ≠ none)
    (message q c n e : String) (raw : List String) (df : Table)
    (atomic : AtomicOutcome) (now : Nat)
    (hntrig : histogram_trigger_capture q = none)
    (hc : ¬ pyStrip c = "") (hsum : pyStartsWith (summarize_csv df) "❌" = false) :
    ask_gemini_text_streaming raw (some e)
      = (raw.filter (fun s => s ≠ "")).map pyStrip
          ++ ["❌ Error while generating text: " ++ e]
    ∧ (∃ hd, chat_stream_response (some h) message true atomic raw (some e) now
        = ((raw.filter (fun s => s ≠ "")).map pyStrip
            ++ ["❌ Error while generating text: " ++ e]).map Event.chunk
            ++ [Event.history hd])
    ∧ ask_gemini_about_data_streaming raw (some e) n
      = raw.filter (fun s => s ≠ "") ++ ["❌ Error analyzing **" ++ n ++ "**: " ++ e]
    ∧ (∃ hd, (csv_stream_response (some h) q (.file c n) df true atomic raw (some e) now).1
        = (raw.filter (fun s => s ≠ "") ++ ["❌ Error analyzing **" ++ n ++ "**: " ++ e]).map
            Event.chunk ++ [Event.history hd]) := by
  refine ⟨rfl, ?_, rfl, ?_⟩
  · obtain ⟨hd, _, h2⟩ := chat_stream_success h hts message atomic raw (some e) now
    exact ⟨hd, by rw [h2]; simp [ask_gemini_text_streaming]⟩
  · obtain ⟨hd, _, h2⟩ :=
      csv_stream_success h hts q c n raw (some e) df atomic now hntrig hc hsum
    exact ⟨hd, by rw [h2]; simp [ask_gemini_about_data_streaming]⟩

/-- C3 amended witness at a concrete input. -/
theorem C3_midstream_failure_witness :
    ask_gemini_text_streaming ["Hello"] (some "boom")
      = (["Hello"].filter (fun s => s ≠ "")).map pyStrip
          ++ ["❌ Error while generating text: " ++ "boom"]
    ∧ (∃ hd, chat_stream_response (some []) "m" true (.ok none) ["Hello"] (some "boom") 0
        = ((["Hello"].filter (fun s => s ≠ "")).map pyStrip
            ++ ["❌ Error while generating text: " ++ "boom"]).map Event.chunk
            ++ [Event.history hd])
    ∧ ask_gemini_about_data_streaming ["Hello"] (some "boom") "d.csv"
      = ["Hello"].filter (fun s => s ≠ "")
          ++ ["❌ Error analyzing **" ++ "d.csv" ++ "**: " ++ "boom"]
    ∧ (∃ hd, (csv_stream_response (some []) "q" (.file "a,b" "d.csv")
          ⟨[("A", ColData.numeric [some 1])]⟩ true (.ok none) ["Hello"] (some "boom") 0).1
        = (["Hello"].filter (fun s => s ≠ "")
            ++ ["❌ Error analyzing **" ++ "d.csv" ++ "**: " ++ "boom"]).map
            Event.chunk ++ [Event.history hd]) :=
  C3_midstream_failure [] (by decide) "m" "q" "a,b" "d.csv" "boom" ["Hello"]
    ⟨[("A", ColData.numeric [some 1])]⟩ (.ok none) 0 (by decide) (by decide) (by decide)

/-- C8 amended: in atomic mode a downstream exception is converted into a
visible reply prefixed with the ❌ error marker, while a downstream call
returning no text is converted into a fixed placeholder reply without that
marker; in both cases the text is committed into the reconciled history as
the assistant turn content and the exchange still appends two turns (text
chat and CSV alike). -/
theorem C8_atomic_failure (h : List ChatMessage) (hts : ∀ m ∈ h, m.timestamp ≠ none)
    (message q c n e : String) (df : Table) (now : Nat)
    (hntrig : histogram_trigger_capture q = none)
    (hc : ¬ pyStrip c = "") (hsum : pyStartsWith (summarize_csv df) "❌" = false) :
    ask_gemini_text (.error e) = "❌ Error while generating text: " ++ e
    ∧ pyStartsWith (ask_gemini_text (.error e)) "❌" = true
    ∧ chat_endpoint_nostream (some h) message (.error e) now
        = .ok { reply := "❌ Error while generating text: " ++ e,
                history := chat_updated_history h message
                  ("❌ Error while generating text: " ++ e) now }
    ∧ chat_endpoint_nostream (some h) message (.ok none) now
        = .ok { reply := "(No response from Gemini)",
                history := chat_updated_history h message "(No response from Gemini)" now }
    ∧ (chat_updated_history h message ("❌ Error while generating text: " ++ e) now).length
        = h.length + 2
    ∧ ask_gemini_about_data (.error e) n = "❌ Error analyzing **" ++ n ++ "**: " ++ e
    ∧ pyStartsWith (ask_gemini_about_data (.error e) n) "❌" = true
    ∧ (csv_endpoint_nostream (some h) q (.file c n) df (.error e) now).1
        = .ok { reply := "❌ Error analyzing **" ++ n ++ "**: " ++ e,
                history := csv_updated_history h q
                  ("❌ Error analyzing **" ++ n ++ "**: " ++ e)
                  (some ("data/processed/" ++ n)) now }
    ∧ ask_gemini_about_data (.ok none) n = "(No response from Gemini about " ++ n ++ ")"
    ∧ (csv_endpoint_nostream (some h) q (.file c n) df (.ok none) now).1
        = .ok { reply := "(No response from Gemini about " ++ n ++ ")",
                history := csv_updated_history h q
                  ("(No response from Gemini about " ++ n ++ ")")
                  (some ("data/processed/" ++ n)) now }
    ∧ (csv_updated_history h q ("(No response from Gemini about " ++ n ++ ")")
        (some ("data/processed/" ++ n)) now).length = h.length + 2 := by
  have hser1 := serialize_history_eq _ (chat_updated_history_timestamps h message
    ("❌ Error while generating text: " ++ e) now hts)
  have hser2 := serialize_history_eq _ (chat_updated_history_timestamps h message
    "(No response from Gemini)" now hts)
  refine ⟨rfl, chat_error_marker e, ?_, ?_, by simp [chat_updated_history],
    rfl, csv_error_marker n e, ?_, rfl, ?_, by simp [csv_updated_history]⟩
  · simp [chat_endpoint_nostream, ask_gemini_text, hser1]
  · simp [chat_endpoint_nostream, ask_gemini_text, hser2]
  · simp [csv_endpoint_nostream, hntrig, hc, hsum, ask_gemini_about_data]
  · simp [csv_endpoint_nostream, hntrig, hc, hsum, ask_gemini_about_data]

/-- C8 amended witness at a concrete input. -/
theorem C8_atomic_failure_witness :
    ask_gemini_text (.error "boom") = "❌ Error while generating text: " ++ "boom"
    ∧ pyStartsWith (ask_gemini_text (.error "boom")) "❌" = true
    ∧ chat_endpoint_nostream (some []) "m" (.error "boom") 0
        = .ok { reply := "❌ Error while generating text: " ++ "boom",
                history := chat_updated_history [] "m"
                  ("❌ Error while generating text: " ++ "boom") 0 }
    ∧ chat_endpoint_nostream (some []) "m" (.ok none) 0
        = .ok { reply := "(No response from Gemini)",
                history := chat_updated_history [] "m" "(No response from Gemini)" 0 }
    ∧ (chat_updated_history [] "m" ("❌ Error while generating text: " ++ "boom") 0).length
        = ([] : List ChatMessage).length + 2
    ∧ ask_gemini_about_data (.error "boom") "d.csv"
        = "❌ Error analyzing **" ++ "d.csv" ++ "**: " ++ "boom"
    ∧ pyStartsWith (ask_gemini_about_data (.error "boom") "d.csv") "❌" = true
    ∧ (csv_endpoint_nostream (some []) "q" (.file "a,b" "d.csv")
          ⟨[("A", ColData.numeric [some 1])]⟩ (.error "boom") 0).1
        = .ok { reply := "❌ Error analyzing **" ++ "d.csv" ++ "**: " ++ "boom",
                history := csv_updated_history [] "q"
                  ("❌ Error analyzing **" ++ "d.csv" ++ "**: " ++ "boom")
                  (some ("data/processed/" ++ "d.csv")) 0 }
    ∧ ask_gemini_about_data (.ok none) "d.csv"
        = "(No response from Gemini about " ++ "d.csv" ++ ")"
    ∧ (csv_endpoint_nostream (some []) "q" (.file "a,b" "d.csv")
          ⟨[("A", ColData.numeric [some 1])]⟩ (.ok none) 0).1
        = .ok { reply := "(No response from Gemini about " ++ "d.csv" ++ ")",
                history := csv_updated_history [] "q"
                  ("(No response from Gemini about " ++ "d.csv" ++ ")")
                  (some ("data/processed/" ++ "d.csv")) 0 }
    ∧ (csv_updated_history [] "q" ("(No response from Gemini about " ++ "d.csv" ++ ")")
        (some ("data/processed/" ++ "d.csv")) 0).length
        = ([] : List ChatMessage).length + 2 :=
  C8_atomic_failure [] (by decide) "m" "q" "a,b" "d.csv" "boom"
    ⟨[("A", ColData.numeric [some 1])]⟩ 0 (by decide) (by decide) (by decide)

/-- C9 amended: in every CSV incremental run whose downstream stream raises
nothing and yields at least one fragment containing a non-whitespace
character, the streaming generator yields one additional final chunk equal
to the whitespace-stripped concatenation of the previously yielded
fragments; the client receives the answer text twice and the assistant turn
committed to history is the concatenation followed by its stripped copy. -/
theorem C9_duplicate_final_chunk (h : List ChatMessage) (hts : ∀ m ∈ h, m.timestamp ≠ none)
    (q c n : String) (raw : List String) (df : Table) (atomic : AtomicOutcome) (now : Nat)
    (hntrig : histogram_trigger_capture q = none)
    (hc : ¬ pyStrip c = "") (hsum : pyStartsWith (summarize_csv df) "❌" = false)
    (hnz : ¬ pyStrip (String.join (raw.filter (fun s => s ≠ ""))) = "") :
    ask_gemini_about_data_streaming raw none n
      = raw.filter (fun s => s ≠ "")
        ++ [pyStrip (String.join (raw.filter (fun s => s ≠ "")))]
    ∧ ∃ hd, serialize_csv_history (csv_updated_history h q
          (String.join (raw.filter (fun s => s ≠ ""))
            ++ pyStrip (String.join (raw.filter (fun s => s ≠ ""))))
          (some ("data/processed/" ++ n)) now) = .ok hd
      ∧ (csv_stream_response (some h) q (.file c n) df true atomic raw none now).1
        = (raw.filter (fun s => s ≠ "")
            ++ [pyStrip (String.join (raw.filter (fun s => s ≠ "")))]).map Event.chunk
            ++ [Event.history hd] := by
  have hstream : ask_gemini_about_data_streaming raw none n
      = raw.filter (fun s => s ≠ "")
        ++ [pyStrip (String.join (raw.filter (fun s => s ≠ "")))] := by
    simp only [ask_gemini_about_data_streaming]
    rw [if_neg hnz]
  obtain ⟨hd, h1, h2⟩ :=
    csv_stream_success h hts q c n raw none df atomic now hntrig hc hsum
  rw [hstream] at h1 h2
  rw [join_concat] at h1
  exact ⟨hstream, hd, h1, h2⟩

/-- C9 amended witness at a concrete input. -/
theorem C9_duplicate_final_chunk_witness :
    ask_gemini_about_data_streaming ["ab ", "c"] none "d.csv"
      = ["ab ", "c"].filter (fun s => s ≠ "")
        ++ [pyStrip (String.join (["ab ", "c"].filter (fun s => s ≠ "")))]
    ∧ ∃ hd, serialize_csv_history (csv_updated_history [] "q"
          (String.join (["ab ", "c"].filter (fun s => s ≠ ""))
            ++ pyStrip (String.join (["ab ", "c"].filter (fun s => s ≠ ""))))
          (some ("data/processed/" ++ "d.csv")) 0) = .ok hd
      ∧ (csv_stream_response (some []) "q" (.file "a,b" "d.csv")
            ⟨[("A", ColData.numeric [some 1])]⟩ true (.ok none) ["ab ", "c"] none 0).1
        = (["ab ", "c"].filter (fun s => s ≠ "")
            ++ [pyStrip (String.join (["ab ", "c"].filter (fun s => s ≠ "")))]).map Event.chunk
            ++ [Event.history hd] :=
  C9_duplicate_final_chunk [] (by decide) "q" "a,b" "d.csv" ["ab ", "c"]
    ⟨[("A", ColData.numeric [some 1])]⟩ (.ok none) 0 (by decide) (by decide) (by decide)
    (by decide)

/-- C6: the Histogram Extractor resolves the requested column by
case-insensitive match against the actual column names (the resolved name
lowercases to the requested name, and any case-insensitive hit makes
resolution succeed); with no match it returns as data a column-not-found
error citing the originally requested name, and with a non-numeric resolved
column it returns as data a column-not-numeric error citing the resolved
name (the embedding returns both as values of HistResult, never raising). -/
theorem C6_column_resolution (df : Table) (col : String) (hdf : df.isEmpty = false) :
    (df.cols.find? (fun c => pyLower c.1 == pyLower col) = none →
      generate_histogram_data df col
        = .error ("Column \x27" ++ col ++ "\x27 not found in CSV."))
    ∧ (∀ name tv, df.cols.find? (fun c => pyLower c.1 == pyLower col)
          = some (name, ColData.textual tv) →
      generate_histogram_data df col
        = .error ("Column \x27" ++ name ++ "\x27 is not numeric."))
    ∧ (∀ name cd, df.cols.find? (fun c => pyLower c.1 == pyLower col) = some (name, cd) →
      pyLower name = pyLower col)
    ∧ ((∃ p ∈ df.cols, pyLower p.1 = pyLower col) →
      ∃ name cd, df.cols.find? (fun c => pyLower c.1 == pyLower col) = some (name, cd)) := by
  refine ⟨?_, ?_, ?_, ?_⟩
  · intro hfind
    simp [generate_histogram_data, hdf, hfind]
  · intro name tv hfind
    simp [generate_histogram_data, hdf, hfind]
  · intro name cd hfind
    have := List.find?_some hfind
    simpa using this
  · intro hex
    have : (df.cols.find? (fun c => pyLower c.1 == pyLower col)).isSome = true := by
      rw [List.find?_isSome]
      obtain ⟨p, hp, hpe⟩ := hex
      exact ⟨p, hp, by simpa using hpe⟩
    match hf : df.cols.find? (fun c => pyLower c.1 == pyLower col) with
    | some (name, cd) => exact ⟨name, cd, hf⟩
    | none => rw [hf] at this; cases this

/-- C6 witness at a concrete input: requesting age resolves the header Age
case-insensitively; requesting a textual column yields the not-numeric
error citing the resolved name; requesting a missing column yields the
not-found error citing the requested name. -/
theorem C6_column_resolution_witness :
    ((⟨[("Age", ColData.numeric [some 30]), ("City", ColData.textual [some "Hanoi"])]⟩ :
        Table).cols.find? (fun c => pyLower c.1 == pyLower "AGE")
      = some ("Age", ColData.numeric [some 30]))
    ∧ pyLower "Age" = pyLower "AGE"
    ∧ generate_histogram_data
        ⟨[("Age", ColData.numeric [some 30]), ("City", ColData.textual [some "Hanoi"])]⟩ "city"
      = .error ("Column \x27" ++ "City" ++ "\x27 is not numeric.")
    ∧ generate_histogram_data
        ⟨[("Age", ColData.numeric [some 30]), ("City", ColData.textual [some "Hanoi"])]⟩ "salary"
      = .error ("Column \x27" ++ "salary" ++ "\x27 not found in CSV.") := by
  have h1 := (C6_column_resolution
    ⟨[("Age", ColData.numeric [some 30]), ("City", ColData.textual [some "Hanoi"])]⟩
    "AGE" (by decide)).2.2.1 "Age" (ColData.numeric [some 30]) (by decide)
  have h2 := (C6_column_resolution
    ⟨[("Age", ColData.numeric [some 30]), ("City", ColData.textual [some "Hanoi"])]⟩
    "city" (by decide)).2.1 "City" [some "Hanoi"] (by decide)
  have h3 := (C6_column_resolution
    ⟨[("Age", ColData.numeric [some 30]), ("City", ColData.textual [some "Hanoi"])]⟩
    "salary" (by decide)).1 (by decide)
  exact ⟨by decide, h1, h2, h3⟩

/-- C7 counterexample: for the claim's own example question, plot histogram
of Price over a table with a numeric Price column, the trigger search
captures the word histogram itself as the column (the lazy capture stops at
the first word boundary after the plot trigger), so the extractor returns a
column-not-found error citing histogram and the reply is that error text —
it contains no bin edges or counts; the generation capability is still not
invoked. -/
theorem C7_counterexample :
    histogram_trigger_capture "plot histogram of Price" = some "histogram"
    ∧ generate_histogram_data
        ⟨[("Name", ColData.textual [some "A"]), ("Price", ColData.numeric [some 3])]⟩
        "histogram"
        = .error ("Column \x27" ++ "histogram" ++ "\x27 not found in CSV.")
    ∧ csv_endpoint_nostream (some []) "plot histogram of Price"
        (.file "Name,Price" "d.csv")
        ⟨[("Name", ColData.textual [some "A"]), ("Price", ColData.numeric [some 3])]⟩
        (.ok none) 0
        = (.ok { reply := "Column \x27histogram\x27 not found in CSV.",
                 history := csv_updated_history [] "plot histogram of Price"
                   ("Column \x27histogram\x27 not found in CSV.")
                   (some "data/processed/d.csv") 0 }, 0) :=
  ⟨by decide, by decide, rfl⟩

/-- C7 amended: for every CSV request whose question the histogram-trigger
search matches with a captured text that, stripped, resolves
case-insensitively to a numeric column (for example the question histogram
of Price), the downstream generation capability is invoked zero times on
both the streaming and non-streaming paths and the reply event carries the
formatted histogram reply containing the extracted bin edges and counts;
for trigger phrasings whose capture does not name a column — such as plot
histogram of Price, where the capture is the word histogram — the reply is
instead the extractor error text, while the capability is still not
invoked. -/
theorem C7_histogram_trigger (h : List ChatMessage) (hts : ∀ m ∈ h, m.timestamp ≠ none)
    (q mcol name c fn : String) (vals : List (Option ℚ)) (df : Table)
    (hcap : histogram_trigger_capture q = some mcol)
    (hdf : df.isEmpty = false)
    (hfind : df.cols.find? (fun c2 => pyLower c2.1 == pyLower (pyStrip mcol))
        = some (name, ColData.numeric vals))
    (hc : ¬ pyStrip c = "") (stream : Bool) (atomic : AtomicOutcome)
    (raw : List String) (rawErr : Option String) (now : Nat) :
    (csv_stream_response (some h) q (.file c fn) df stream atomic raw rawErr now).2 = 0
    ∧ (csv_endpoint_nostream (some h) q (.file c fn) df atomic now).2 = 0
    ∧ generate_histogram_data df (pyStrip mcol)
        = HistResult.ok name (npHistogram (vals.filterMap id)).1
            (npHistogram (vals.filterMap id)).2
    ∧ ∃ hd,
        (csv_stream_response (some h) q (.file c fn) df stream atomic raw rawErr now).1
          = [Event.reply (histReply (pyStrip mcol)
              (HistResult.ok name (npHistogram (vals.filterMap id)).1
                (npHistogram (vals.filterMap id)).2)),
             Event.history hd] := by
  have hgen : generate_histogram_data df (pyStrip mcol)
      = HistResult.ok name (npHistogram (vals.filterMap id)).1
          (npHistogram (vals.filterMap id)).2 := by
    simp [generate_histogram_data, hdf, hfind]
  have hne := histReply_ok_ne (pyStrip mcol) name (npHistogram (vals.filterMap id)).1
    (npHistogram (vals.filterMap id)).2
  have hser := serialize_csv_history_eq
    (csv_updated_history h q
      (histReply (pyStrip mcol)
        (HistResult.ok name (npHistogram (vals.filterMap id)).1
          (npHistogram (vals.filterMap id)).2))
      (some ("data/processed/" ++ fn)) now)
    (csv_updated_history_timestamps h q _ _ now hts)
  obtain ⟨hd, hserhd⟩ : ∃ hd, serialize_csv_history
      (csv_updated_history h q
        (histReply (pyStrip mcol)
          (HistResult.ok name (npHistogram (vals.filterMap id)).1
            (npHistogram (vals.filterMap id)).2))
        (some ("data/processed/" ++ fn)) now) = .ok hd := ⟨_, hser⟩
  refine ⟨?_, ?_, hgen, ?_⟩
  · simp [csv_stream_response, hc, csv_stream_core, hcap]
  · simp [csv_endpoint_nostream, hc, hcap]
  · exact ⟨hd,
      by simp [csv_stream_response, hc, csv_stream_core, hcap, csv_finish, hgen, hne, hserhd]⟩

/-- C7 amended witness at a concrete input: the question histogram of Price
really captures price, which resolves to the numeric Price column. -/
theorem C7_histogram_trigger_witness :
    (csv_stream_response (some []) "histogram of Price" (.file "Name,Price" "d.csv")
        ⟨[("Price", ColData.numeric [some 1, some 2])]⟩ true (.ok none) [] none
        0).2 = 0
    ∧ (csv_endpoint_nostream (some []) "histogram of Price" (.file "Name,Price" "d.csv")
        ⟨[("Price", ColData.numeric [some 1, some 2])]⟩ (.ok none) 0).2 = 0
    ∧ generate_histogram_data ⟨[("Price", ColData.numeric [some 1, some 2])]⟩ (pyStrip "price")
        = HistResult.ok "Price" (npHistogram ([some (1:ℚ), some 2].filterMap id)).1
            (npHistogram ([some (1:ℚ), some 2].filterMap id)).2
    ∧ ∃ hd,
        (csv_stream_response (some []) "histogram of Price" (.file "Name,Price" "d.csv")
            ⟨[("Price", ColData.numeric [some 1, some 2])]⟩ true (.ok none) []
            none 0).1
          = [Event.reply (histReply (pyStrip "price")
              (HistResult.ok "Price" (npHistogram ([some (1:ℚ), some 2].filterMap id)).1
                (npHistogram ([some (1:ℚ), some 2].filterMap id)).2)),
             Event.history hd] :=
  C7_histogram_trigger [] (by decide) "histogram of Price" "price" "Price"
    "Name,Price" "d.csv" [some 1, some 2] ⟨[("Price", ColData.numeric [some 1, some 2])]⟩
    (by decide) (by decide) (by decide) (by decide) true (.ok none) [] none 0

/-! ### Histogram lemmas -/

theorem foldl_min_le_init (r : List ℚ) (x : ℚ) : r.foldl min x ≤ x := by
  induction r generalizing x with
  | nil => exact le_refl x
  | cons a r ih => exact le_trans (ih (min x a)) (min_le_left x a)

theorem foldl_min_le_mem (r : List ℚ) (x v : ℚ) (hv : v ∈ r) : r.foldl min x ≤ v := by
  induction r generalizing x with
  | nil => cases hv
  | cons a r ih =>
    rcases List.mem_cons.1 hv with rfl | hv
    · exact le_trans (foldl_min_le_init r (min x v)) (min_le_right x v)
    · exact ih (min x a) hv

/-- The list minimum bounds every member from below. -/
theorem listMin_le (xs : List ℚ) (v : ℚ) (hv : v ∈ xs) : listMin xs ≤ v := by
  cases xs with
  | nil => cases hv
  | cons x r =>
    rcases List.mem_cons.1 hv with rfl | hv
    · exact foldl_min_le_init r v
    · exact foldl_min_le_mem r x v hv

theorem init_le_foldl_max (r : List ℚ) (x : ℚ) : x ≤ r.foldl max x := by
  induction r generalizing x with
  | nil => exact le_refl x
  | cons a r ih => exact le_trans (le_max_left x a) (ih (max x a))

theorem mem_le_foldl_max (r : List ℚ) (x v : ℚ) (hv : v ∈ r) : v ≤ r.foldl max x := by
  induction r generalizing x with
  | nil => cases hv
  | cons a r ih =>
    rcases List.mem_cons.1 hv with rfl | hv
    · exact le_trans (le_max_right x v) (init_le_foldl_max r (max x v))
    · exact ih (max x a) hv

/-- The list maximum bounds every member from above. -/
theorem le_listMax (xs : List ℚ) (v : ℚ) (hv : v ∈ xs) : v ≤ listMax xs := by
  cases xs with
  | nil => cases hv
  | cons x r =>
    rcases List.mem_cons.1 hv with rfl | hv
    · exact init_le_foldl_max r v
    · exact mem_le_foldl_max r x v hv

/-- A value clears the i-th bin edge exactly when its scaled offset clears
i. -/
theorem edge_le_iff (lo hi : ℚ) (hlt : lo < hi) (i : Nat) (v : ℚ) :
    edge lo hi i ≤ v ↔ (i : ℚ) ≤ (v - lo) * 10 / (hi - lo) := by
  have hd : (0:ℚ) < hi - lo := by linarith
  rw [le_div_iff₀ hd]
  unfold edge
  constructor <;> intro h <;> linarith

/-- A value stays below the i-th bin edge exactly when its scaled offset
stays below i. -/
theorem lt_edge_iff (lo hi : ℚ) (hlt : lo < hi) (i : Nat) (v : ℚ) :
    v < edge lo hi i ↔ (v - lo) * 10 / (hi - lo) < (i : ℚ) := by
  have hd : (0:ℚ) < hi - lo := by linarith
  rw [div_lt_iff₀ hd]
  unfold edge
  constructor <;> intro h <;> linarith

/-- The final bin edge is the maximum of the range. -/
theorem edge_ten (lo hi : ℚ) : edge lo hi 10 = hi := by
  unfold edge
  push_cast
  ring

theorem inBin_lt9_iff (lo hi : ℚ) (i : Nat) (v : ℚ) (h : i < 9) :
    inBin lo hi i v = true ↔ (edge lo hi i ≤ v ∧ v < edge lo hi (i + 1)) := by
  have hb : (i == 9) = false := by simp; omega
  simp [inBin, hb]

theorem inBin9_iff (lo hi : ℚ) (v : ℚ) :
    inBin lo hi 9 v = true ↔ (edge lo hi 9 ≤ v ∧ v ≤ edge lo hi 10) := by
  simp [inBin]

/-- Every value inside the histogram range lies in exactly one of the ten
buckets. -/
theorem bin_unique (lo hi : ℚ) (hlt : lo < hi) (v : ℚ) (hv1 : lo ≤ v) (hv2 : v ≤ hi) :
    ∃ k, k < 10 ∧ ∀ i, i < 10 → (inBin lo hi i v = true ↔ i = k) := by
  have hd : (0:ℚ) < hi - lo := by linarith
  set t : ℚ := (v - lo) * 10 / (hi - lo) with ht
  have ht0 : 0 ≤ t := by
    apply div_nonneg _ (le_of_lt hd)
    nlinarith
  have htle : t ≤ 10 := by
    rw [ht, div_le_iff₀ hd]
    linarith
  have hfl0 : 0 ≤ ⌊t⌋ := Int.floor_nonneg.2 ht0
  by_cases h9 : (9:ℚ) ≤ t
  · refine ⟨9, by norm_num, ?_⟩
    intro i hi10
    by_cases hi9 : i = 9
    · subst hi9
      rw [inBin9_iff]
      refine iff_of_true ⟨?_, ?_⟩ rfl
      · rw [edge_le_iff lo hi hlt 9 v, ← ht]
        exact_mod_cast h9
      · rw [edge_ten]
        exact hv2
    · rw [inBin_lt9_iff lo hi i v (by omega)]
      apply iff_of_false _ hi9
      rintro ⟨h1, h2⟩
      rw [lt_edge_iff lo hi hlt (i + 1) v, ← ht] at h2
      have hc9 : ((i:ℚ) + 1) ≤ 9 := by
        have : i + 1 ≤ 9 := by omega
        exact_mod_cast this
      push_cast at h2
      linarith
  · push_neg at h9
    have hfl9 : ⌊t⌋ ≤ 8 := by
      have : ⌊t⌋ < (9:ℤ) := Int.floor_lt.2 (by exact_mod_cast h9)
      omega
    refine ⟨⌊t⌋.toNat, by omega, ?_⟩
    have hcast : ((⌊t⌋.toNat : ℕ) : ℚ) = ((⌊t⌋ : ℤ) : ℚ) := by
      exact_mod_cast congrArg Int.cast (Int.toNat_of_nonneg hfl0)
    have hfle : ((⌊t⌋ : ℤ) : ℚ) ≤ t := Int.floor_le t
    have hflt : t < ((⌊t⌋ : ℤ) : ℚ) + 1 := Int.lt_floor_add_one t
    intro i hi10
    by_cases hi9 : i = 9
    · subst hi9
      rw [inBin9_iff]
      apply iff_of_false
      · rintro ⟨h1, _⟩
        rw [edge_le_iff lo hi hlt 9 v, ← ht] at h1
        push_cast at h1
        linarith
      · omega
    · rw [inBin_lt9_iff lo hi i v (by omega)]
      constructor
      · rintro ⟨h1, h2⟩
        rw [edge_le_iff lo hi hlt i v, ← ht] at h1
        rw [lt_edge_iff lo hi hlt (i + 1) v, ← ht] at h2
        push_cast at h2
        have hni : (i : ℤ) ≤ ⌊t⌋ := Int.le_floor.2 (by exact_mod_cast h1)
        have hni2 : ⌊t⌋ < (i : ℤ) + 1 := by
          by_contra hcon
          push_neg at hcon
          have : ((i:ℚ) + 1) ≤ ((⌊t⌋ : ℤ) : ℚ) := by exact_mod_cast hcon
          linarith
        omega
      · intro hik
        subst hik
        constructor
        · rw [edge_le_iff lo hi hlt _ v, ← ht]
          rw [hcast]
          exact hfle
        · rw [lt_edge_iff lo hi hlt _ v, ← ht]
          push_cast
          rw [hcast]
          linarith

/-- The bucket indicator sums to one over the ten buckets for every value
inside the range. -/
theorem bin_sum_one (lo hi : ℚ) (hlt : lo < hi) (v : ℚ) (hv1 : lo ≤ v) (hv2 : v ≤ hi) :
    (∑ i in Finset.range 10, if inBin lo hi i v = true then (1:ℕ) else 0) = 1 := by
  obtain ⟨k, hk10, hchar⟩ := bin_unique lo hi hlt v hv1 hv2
  have hcong : ∀ i ∈ Finset.range 10,
      (if inBin lo hi i v = true then (1:ℕ) else 0) = (if i = k then 1 else 0) := by
    intro i hi
    rw [Finset.mem_range] at hi
    exact if_congr (hchar i hi) rfl rfl
  rw [Finset.sum_congr rfl hcong, Finset.sum_ite_eq' (Finset.range 10) k (fun _ => (1:ℕ))]
  simp [Finset.mem_range.2 hk10]

theorem list_range_map_sum (n : Nat) (f : Nat → Nat) :
    ((List.range n).map f).sum = ∑ i in Finset.range n, f i := by
  induction n with
  | zero => simp
  | succ m ih =>
    rw [List.range_succ, List.map_append, List.sum_append, Finset.sum_range_succ, ih]
    simp

/-- The ten bucket counts add up to the number of counted values when every
value lies inside the range. -/
theorem counts_sum (lo hi : ℚ) (hlt : lo < hi) (xs : List ℚ)
    (hb : ∀ v ∈ xs, lo ≤ v ∧ v ≤ hi) :
    ((List.range 10).map (fun i => xs.countP (fun v => inBin lo hi i v))).sum
      = xs.length := by
  rw [list_range_map_sum]
  induction xs with
  | nil => simp
  | cons a tl ih =>
    have ha := hb a (List.mem_cons_self a tl)
    simp only [List.countP_cons, List.length_cons]
    rw [Finset.sum_add_distrib, ih (fun v hv => hb v (List.mem_cons_of_mem a hv))]
    have hone := bin_sum_one lo hi hlt a ha.1 ha.2
    omega

theorem edge_mono (lo hi : ℚ) (hle : lo ≤ hi) (m : Nat) :
    edge lo hi m ≤ edge lo hi (m + 1) := by
  unfold edge
  push_cast
  have h1 : (m:ℚ) * (hi - lo) ≤ ((m:ℚ) + 1) * (hi - lo) :=
    mul_le_mul_of_nonneg_right (by linarith) (sub_nonneg.2 hle)
  linarith

/-- The eleven bin edges are non-decreasing. -/
theorem edges_chain (lo hi : ℚ) (hle : lo ≤ hi) :
    List.Chain' (· ≤ ·) ((List.range 11).map (edge lo hi)) := by
  rw [List.chain'_map]
  exact (List.chain'_range_succ (fun a b => edge lo hi a ≤ edge lo hi b) 10).2
    (fun m _ => edge_mono lo hi hle m)

/-- C5: for every numeric column with nonzero range and at least one
non-missing value, the Histogram Extractor succeeds with a bin-edge
sequence of length 11 that is non-decreasing, a counts sequence of length
10, and counts summing to the number of non-missing values. -/
theorem C5_histogram_shape (df : Table) (col name : String) (vals : List (Option ℚ))
    (hdf : df.isEmpty = false)
    (hfind : df.cols.find? (fun c => pyLower c.1 == pyLower col)
        = some (name, ColData.numeric vals))
    (hne : vals.filterMap id ≠ [])
    (hrange : listMin (vals.filterMap id) < listMax (vals.filterMap id)) :
    generate_histogram_data df col
      = HistResult.ok name (npHistogram (vals.filterMap id)).1
          (npHistogram (vals.filterMap id)).2
    ∧ (npHistogram (vals.filterMap id)).1.length = 11
    ∧ List.Chain' (· ≤ ·) (npHistogram (vals.filterMap id)).1
    ∧ (npHistogram (vals.filterMap id)).2.length = 10
    ∧ (npHistogram (vals.filterMap id)).2.sum = (vals.filterMap id).length := by
  set xs := vals.filterMap id with hxs
  have hnpe : xs.isEmpty = false := by
    cases hx : xs with
    | nil => exact absurd hx hne
    | cons a l => rfl
  have hmm : ¬ listMin xs = listMax xs := ne_of_lt hrange
  have hnp : npHistogram xs
      = ((List.range 11).map (edge (listMin xs) (listMax xs)),
         (List.range 10).map
           (fun i => xs.countP (fun v => inBin (listMin xs) (listMax xs) i v))) := by
    simp only [npHistogram, hnpe, Bool.false_eq_true, if_false]
    rw [if_neg hmm, if_neg hmm]
  have hbound : ∀ v ∈ xs, listMin xs ≤ v ∧ v ≤ listMax xs :=
    fun v hv => ⟨listMin_le xs v hv, le_listMax xs v hv⟩
  refine ⟨?_, ?_, ?_, ?_, ?_⟩
  · simp [generate_histogram_data, hdf, hfind]
  · rw [hnp]
    simp
  · rw [hnp]
    exact edges_chain _ _ (le_of_lt hrange)
  · rw [hnp]
    simp
  · rw [hnp]
    exact counts_sum _ _ hrange xs hbound

/-- C5 witness at a concrete input. -/
theorem C5_histogram_shape_witness :
    generate_histogram_data ⟨[("Price", ColData.numeric [some 1, some 2, none, some 3])]⟩
        "price"
      = HistResult.ok "Price"
          (npHistogram ([some (1:ℚ), some 2, none, some 3].filterMap id)).1
          (npHistogram ([some (1:ℚ), some 2, none, some 3].filterMap id)).2
    ∧ (npHistogram ([some (1:ℚ), some 2, none, some 3].filterMap id)).1.length = 11
    ∧ List.Chain' (· ≤ ·) (npHistogram ([some (1:ℚ), some 2, none, some 3].filterMap id)).1
    ∧ (npHistogram ([some (1:ℚ), some 2, none, some 3].filterMap id)).2.length = 10
    ∧ (npHistogram ([some (1:ℚ), some 2, none, some 3].filterMap id)).2.sum
        = ([some (1:ℚ), some 2, none, some 3].filterMap id).length :=
  C5_histogram_shape ⟨[("Price", ColData.numeric [some 1, some 2, none, some 3])]⟩
    "price" "Price" [some 1, some 2, none, some 3]
    (by decide) (by decide) (by decide) (by decide)

end AIChat
